import Mathlib

/-!
Verification of the AgroSat field-monitoring server (`src/server.ts`).

The development shallowly embeds the pure logic of the `/api/analyze`
request handler and its helper functions: the WMO weather-code mapping,
the seasonal-norm table, the stress-cause classifier, the synthetic
fallback generator, the weather lookup (success and failure paths), the
AI-insight fallback logic, the geo-coordinate adapter, the input
validation, and a small state machine for the persistence writes.

JavaScript numbers are modelled as `ℚ` (the JSON bodies exchanged here
carry no NaN/Infinity), `Math.round` as `⌊q + 1/2⌋`, and JS truthiness
by an explicit `JSVal` type.
-/

namespace AgroSat

/-- Coarse weather-condition labels produced by `wmoToCondition`
(src/server.ts lines 522-532). -/
inductive Condition where
  | Clear
  | Clouds
  | Rain
  | Snow
  | Thunderstorm
  | Unknown
deriving DecidableEq, Repr

/-- `wmoToCondition` (src/server.ts lines 522-532): maps a numeric WMO
weather code to a coarse condition label by a first-match chain of range
checks. -/
def wmoToCondition (code : ℤ) : Condition :=
  if code = 0 then .Clear
  else if 1 ≤ code ∧ code ≤ 3 then .Clouds
  else if 45 ≤ code ∧ code ≤ 48 then .Clouds
  else if 51 ≤ code ∧ code ≤ 67 then .Rain
  else if 71 ≤ code ∧ code ≤ 77 then .Snow
  else if 80 ≤ code ∧ code ≤ 82 then .Rain
  else if 85 ≤ code ∧ code ≤ 86 then .Snow
  else if 95 ≤ code then .Thunderstorm
  else .Unknown

/-- A code lies in one of the explicitly bounded ranges of
`wmoToCondition` (everything before the final `code >= 95` check). -/
def inBoundedRange (code : ℤ) : Prop :=
  code = 0 ∨ (1 ≤ code ∧ code ≤ 3) ∨ (45 ≤ code ∧ code ≤ 48) ∨
    (51 ≤ code ∧ code ≤ 67) ∨ (71 ≤ code ∧ code ≤ 77) ∨
    (80 ≤ code ∧ code ≤ 82) ∨ (85 ≤ code ∧ code ≤ 86)

instance (code : ℤ) : Decidable (inBoundedRange code) := by
  unfold inBoundedRange; infer_instance

/-- `getSeasonalNorm` (src/server.ts lines 493-499): expected NDVI
baseline keyed by the zero-indexed month; the crop argument is accepted
but unused. -/
def getSeasonalNorm (crop : String) (month : ℕ) : ℚ :=
  if 10 ≤ month ∨ month ≤ 2 then 0.2
  else if 3 ≤ month ∧ month ≤ 4 then 0.45
  else if 5 ≤ month ∧ month ≤ 7 then 0.8
  else 0.5

/-- Weather snapshot assembled by the handler (src/server.ts lines
504, 534-551). -/
structure Weather where
  temp : ℚ
  condition : Condition
  humidity : ℚ
  wind : ℚ
  rain_14d : ℚ
deriving DecidableEq, Repr

def noStressLabel : String := "Нет явного стресса"

def droughtLabel : String := "Дефицит влаги"

def heatLabel : String := "Тепловой стресс"

def diseaseLabel : String := "Риск заболеваний (Влажность)"

def freezeLabel : String := "Риск вымерзания"

def delayLabel : String := "Задержка вегетации / Питание"

/-- `stressCause` (src/server.ts lines 554-561): a first-match priority
chain over (rain_14d, temp, humidity, ndvi_average), evaluated only when
the NDVI deviation is below -0.15. -/
def stressCause (ndviDeviation : ℚ) (w : Weather) (ndviAverage : ℚ) : String :=
  if ndviDeviation < -0.15 then
    if w.rain_14d < 5 ∧ w.temp > 25 then droughtLabel
    else if w.temp > 30 then heatLabel
    else if w.humidity > 85 then diseaseLabel
    else if w.temp < 0 ∧ ndviAverage > 0.3 then freezeLabel
    else delayLabel
  else noStressLabel

/-- C2: the claim asserts code 999 maps to Unknown, but the final range
check of `wmoToCondition` is unbounded above (`code >= 95`), so 999 maps
to Thunderstorm. -/
theorem wmo_999_not_unknown :
    wmoToCondition 999 = Condition.Thunderstorm ∧
      wmoToCondition 999 ≠ Condition.Unknown := by
  constructor <;> decide

/-- C2 (amended): `wmoToCondition` is total into the six labels with
code 0 ↦ Clear, 2 ↦ Clouds, 61 ↦ Rain, 96 ↦ Thunderstorm; every code
≥ 95 (999 included) maps to Thunderstorm, and a code maps to Unknown
exactly when it lies outside all bounded ranges and is below 95. -/
theorem wmoToCondition_spec :
    wmoToCondition 0 = Condition.Clear ∧
    wmoToCondition 2 = Condition.Clouds ∧
    wmoToCondition 61 = Condition.Rain ∧
    wmoToCondition 96 = Condition.Thunderstorm ∧
    (∀ code : ℤ, 95 ≤ code → wmoToCondition code = Condition.Thunderstorm) ∧
    (∀ code : ℤ,
      wmoToCondition code = Condition.Unknown ↔ ¬ inBoundedRange code ∧ code < 95) := by
  refine ⟨by decide, by decide, by decide, by decide, ?_, ?_⟩
  · intro code h
    unfold wmoToCondition
    have h0 : ¬ code = 0 := by omega
    have h1 : ¬ (1 ≤ code ∧ code ≤ 3) := by omega
    have h2 : ¬ (45 ≤ code ∧ code ≤ 48) := by omega
    have h3 : ¬ (51 ≤ code ∧ code ≤ 67) := by omega
    have h4 : ¬ (71 ≤ code ∧ code ≤ 77) := by omega
    have h5 : ¬ (80 ≤ code ∧ code ≤ 82) := by omega
    have h6 : ¬ (85 ≤ code ∧ code ≤ 86) := by omega
    simp [h0, h1, h2, h3, h4, h5, h6, h]
  · intro code
    unfold wmoToCondition inBoundedRange
    by_cases h0 : code = 0 <;>
      by_cases h1 : 1 ≤ code ∧ code ≤ 3 <;>
      by_cases h2 : 45 ≤ code ∧ code ≤ 48 <;>
      by_cases h3 : 51 ≤ code ∧ code ≤ 67 <;>
      by_cases h4 : 71 ≤ code ∧ code ≤ 77 <;>
      by_cases h5 : 80 ≤ code ∧ code ≤ 82 <;>
      by_cases h6 : 85 ≤ code ∧ code ≤ 86 <;>
      by_cases h7 : 95 ≤ code <;>
      simp [h0, h1, h2, h3, h4, h5, h6, h7] <;> omega

/-- C2 witness: instantiating the amended theorem at code 999 and at the
unmapped code 4. -/
theorem wmoToCondition_spec_witness :
    wmoToCondition 999 = Condition.Thunderstorm ∧
      wmoToCondition 4 = Condition.Unknown := by
  refine ⟨wmoToCondition_spec.2.2.2.2.1 999 (by decide), ?_⟩
  exact (wmoToCondition_spec.2.2.2.2.2 4).mpr (by decide)

/-- C3: `getSeasonalNorm` ignores its crop argument and is the fixed
table keyed by the zero-indexed month: 0.2 for months 10, 11, 0, 1, 2;
0.45 for months 3, 4; 0.8 for months 5, 6, 7; 0.5 for the remaining
months 8 and 9. -/
theorem getSeasonalNorm_spec :
    (∀ crop crop' : String, ∀ month : ℕ,
      getSeasonalNorm crop month = getSeasonalNorm crop' month) ∧
    (∀ crop : String, ∀ month : ℕ,
      ((10 ≤ month ∨ month ≤ 2) → getSeasonalNorm crop month = 0.2) ∧
      ((month = 3 ∨ month = 4) → getSeasonalNorm crop month = 0.45) ∧
      ((month = 5 ∨ month = 6 ∨ month = 7) → getSeasonalNorm crop month = 0.8) ∧
      ((month = 8 ∨ month = 9) → getSeasonalNorm crop month = 0.5)) := by
  constructor
  · intro crop crop' month; rfl
  · intro crop month
    refine ⟨?_, ?_, ?_, ?_⟩ <;> intro h <;> unfold getSeasonalNorm
    · simp [h]
    · rcases h with h | h <;> subst h <;> norm_num
    · rcases h with h | h | h <;> subst h <;> norm_num
    · rcases h with h | h <;> subst h <;> norm_num

/-- Default crop type used when creating a field (src/server.ts line 329). -/
def cropWheat : String := "Пшеница"

/-- Crop type substituted when the field row is missing
(src/server.ts line 490). -/
def cropUnknown : String := "Неизвестная культура"

/-- C3 witness: month 11 ↦ 0.2, month 3 ↦ 0.45, month 6 ↦ 0.8,
month 9 ↦ 0.5, and two different crops agree. -/
theorem getSeasonalNorm_spec_witness :
    getSeasonalNorm cropWheat 11 = 0.2 ∧
    getSeasonalNorm cropWheat 3 = 0.45 ∧
    getSeasonalNorm cropWheat 6 = 0.8 ∧
    getSeasonalNorm cropWheat 9 = 0.5 ∧
    getSeasonalNorm cropWheat 11 = getSeasonalNorm cropUnknown 11 :=
  ⟨(getSeasonalNorm_spec.2 cropWheat 11).1 (Or.inl (by decide)),
   (getSeasonalNorm_spec.2 cropWheat 3).2.1 (Or.inl rfl),
   (getSeasonalNorm_spec.2 cropWheat 6).2.2.1 (Or.inr (Or.inl rfl)),
   (getSeasonalNorm_spec.2 cropWheat 9).2.2.2 (Or.inr rfl),
   getSeasonalNorm_spec.1 cropWheat cropUnknown 11⟩

/-- C4: `stressCause` returns the no-stress label whenever the deviation
is at least -0.15; below the threshold it is a deterministic first-match
chain (drought, heat, disease, freeze, growth delay), and in particular
for deviation -0.2, rain_14d 2, temp 28 the drought label wins whatever
the humidity, wind, condition and NDVI average are. -/
theorem stressCause_spec :
    (∀ (dev avg : ℚ) (w : Weather), -0.15 ≤ dev →
      stressCause dev w avg = noStressLabel) ∧
    (∀ (dev avg : ℚ) (w : Weather), dev < -0.15 →
      ((w.rain_14d < 5 ∧ w.temp > 25) → stressCause dev w avg = droughtLabel) ∧
      (¬ (w.rain_14d < 5 ∧ w.temp > 25) → w.temp > 30 →
        stressCause dev w avg = heatLabel) ∧
      (¬ (w.rain_14d < 5 ∧ w.temp > 25) → ¬ w.temp > 30 → w.humidity > 85 →
        stressCause dev w avg = diseaseLabel) ∧
      (¬ (w.rain_14d < 5 ∧ w.temp > 25) → ¬ w.temp > 30 → ¬ w.humidity > 85 →
        (w.temp < 0 ∧ avg > 0.3) → stressCause dev w avg = freezeLabel) ∧
      (¬ (w.rain_14d < 5 ∧ w.temp > 25) → ¬ w.temp > 30 → ¬ w.humidity > 85 →
        ¬ (w.temp < 0 ∧ avg > 0.3) → stressCause dev w avg = delayLabel)) ∧
    (∀ (c : Condition) (humidity wind avg : ℚ),
      stressCause (-0.2) (Weather.mk 28 c humidity wind 2) avg = droughtLabel) := by
  refine ⟨?_, ?_, ?_⟩
  · intro dev avg w h
    unfold stressCause
    rw [if_neg (by linarith)]
  · intro dev avg w h
    refine ⟨?_, ?_, ?_, ?_, ?_⟩
    · intro h1
      unfold stressCause
      rw [if_pos h, if_pos h1]
    · intro h1 h2
      unfold stressCause
      rw [if_pos h, if_neg h1, if_pos h2]
    · intro h1 h2 h3
      unfold stressCause
      rw [if_pos h, if_neg h1, if_neg h2, if_pos h3]
    · intro h1 h2 h3 h4
      unfold stressCause
      rw [if_pos h, if_neg h1, if_neg h2, if_neg h3, if_pos h4]
    · intro h1 h2 h3 h4
      unfold stressCause
      rw [if_pos h, if_neg h1, if_neg h2, if_neg h3, if_neg h4]
  · intro c humidity wind avg
    unfold stressCause
    rw [if_pos (by norm_num), if_pos (by exact ⟨by norm_num, by norm_num⟩)]

/-- C4 witness: at deviation -0.2, temp 28, humidity 90, rain 2 both the
drought rule and the disease rule hold, yet the drought label is
returned (priority), and a deviation of -0.1 yields the no-stress
label. -/
theorem stressCause_spec_witness :
    stressCause (-0.2) (Weather.mk 28 Condition.Clear 90 5 2) 0.5 = droughtLabel ∧
      stressCause (-0.1) (Weather.mk 28 Condition.Clear 90 5 2) 0.5 = noStressLabel :=
  ⟨stressCause_spec.2.2 Condition.Clear 90 5 0.5,
   stressCause_spec.1 (-0.1) 0.5 (Weather.mk 28 Condition.Clear 90 5 2) (by norm_num)⟩

/-- Analysis base record: the fields set either by the Copernicus branch
(src/server.ts lines 448-457) or by the synthetic fallback
(lines 470-477). -/
structure AnalysisBase where
  ndvi_average : ℚ
  healthy_percent : ℚ
  moderate_percent : ℚ
  stressed_percent : ℚ
  alert : Bool
  map_url : Option String
  product_id : Option String
  acquisition_date : Option String
deriving DecidableEq, Repr

/-- The synthetic fallback base (src/server.ts lines 470-477), with the
five `Math.random()` draws passed explicitly (each lies in `[0,1)`). -/
def fallbackBase (r1 r2 r3 r4 r5 : ℚ) : AnalysisBase where
  ndvi_average := 0.58 + r1 * 0.2
  healthy_percent := 65 + r2 * 20
  moderate_percent := 20 + r3 * 10
  stressed_percent := 5 + r4 * 5
  alert := decide (r5 > 0.8)
  map_url := none
  product_id := none
  acquisition_date := none

/-- C5: for every draw of the random inputs (each in `[0,1)`), the
synthetic fallback produces healthy in [65,85], moderate in [20,30],
stressed in [5,10], NDVI average in its fixed band [0.58,0.78], and a
null map reference. -/
theorem fallbackBase_spec (r1 r2 r3 r4 r5 : ℚ)
    (h1 : 0 ≤ r1 ∧ r1 < 1) (h2 : 0 ≤ r2 ∧ r2 < 1) (h3 : 0 ≤ r3 ∧ r3 < 1)
    (h4 : 0 ≤ r4 ∧ r4 < 1) :
    (65 ≤ (fallbackBase r1 r2 r3 r4 r5).healthy_percent ∧
      (fallbackBase r1 r2 r3 r4 r5).healthy_percent ≤ 85) ∧
    (20 ≤ (fallbackBase r1 r2 r3 r4 r5).moderate_percent ∧
      (fallbackBase r1 r2 r3 r4 r5).moderate_percent ≤ 30) ∧
    (5 ≤ (fallbackBase r1 r2 r3 r4 r5).stressed_percent ∧
      (fallbackBase r1 r2 r3 r4 r5).stressed_percent ≤ 10) ∧
    (0.58 ≤ (fallbackBase r1 r2 r3 r4 r5).ndvi_average ∧
      (fallbackBase r1 r2 r3 r4 r5).ndvi_average ≤ 0.78) ∧
    (fallbackBase r1 r2 r3 r4 r5).map_url = none := by
  obtain ⟨h1a, h1b⟩ := h1
  obtain ⟨h2a, h2b⟩ := h2
  obtain ⟨h3a, h3b⟩ := h3
  obtain ⟨h4a, h4b⟩ := h4
  unfold fallbackBase
  refine ⟨⟨by nlinarith, by nlinarith⟩, ⟨by nlinarith, by nlinarith⟩,
    ⟨by nlinarith, by nlinarith⟩, ⟨by nlinarith, by nlinarith⟩, rfl⟩

/-- C5 witness: all bands hold at the concrete draws (1/2, 1/2, 1/2,
1/2, 1/2). -/
theorem fallbackBase_spec_witness :
    (65 ≤ (fallbackBase (1/2) (1/2) (1/2) (1/2) (1/2)).healthy_percent ∧
      (fallbackBase (1/2) (1/2) (1/2) (1/2) (1/2)).healthy_percent ≤ 85) ∧
    (20 ≤ (fallbackBase (1/2) (1/2) (1/2) (1/2) (1/2)).moderate_percent ∧
      (fallbackBase (1/2) (1/2) (1/2) (1/2) (1/2)).moderate_percent ≤ 30) ∧
    (5 ≤ (fallbackBase (1/2) (1/2) (1/2) (1/2) (1/2)).stressed_percent ∧
      (fallbackBase (1/2) (1/2) (1/2) (1/2) (1/2)).stressed_percent ≤ 10) ∧
    (0.58 ≤ (fallbackBase (1/2) (1/2) (1/2) (1/2) (1/2)).ndvi_average ∧
      (fallbackBase (1/2) (1/2) (1/2) (1/2) (1/2)).ndvi_average ≤ 0.78) ∧
    (fallbackBase (1/2) (1/2) (1/2) (1/2) (1/2)).map_url = none :=
  fallbackBase_spec (1/2) (1/2) (1/2) (1/2) (1/2)
    ⟨by norm_num, by norm_num⟩ ⟨by norm_num, by norm_num⟩
    ⟨by norm_num, by norm_num⟩ ⟨by norm_num, by norm_num⟩

/-- JS `x || 0` on a number: 0 is falsy, every other (non-NaN) number is
truthy. -/
def jsOrZero (a : ℚ) : ℚ := if a = 0 then 0 else a

/-- JS `x || 0` where `x` may be null/undefined (a missing daily value in
the provider reply). -/
def jsOrZeroOpt : Option ℚ → ℚ
  | none => 0
  | some x => jsOrZero x

/-- The precipitation reduce (src/server.ts line 520):
`daily.precipitation_sum.reduce((a, b) => (a || 0) + (b || 0), 0)`. -/
def rainSum (daily : List (Option ℚ)) : ℚ :=
  daily.foldl (fun a b => jsOrZero a + jsOrZeroOpt b) 0

/-- JS `Math.round`: round half toward positive infinity. -/
def jsRound (q : ℚ) : ℤ := ⌊q + 1/2⌋

/-- JS `parseFloat(x.toFixed(1))` for the nonnegative wind speeds at
hand: round to one decimal digit. -/
def toFixed1 (q : ℚ) : ℚ := (jsRound (q * 10) : ℚ) / 10

/-- The `current` block of the forecast-provider reply
(src/server.ts lines 511, 518). -/
structure CurrentWeather where
  temperature_2m : ℚ
  relative_humidity_2m : ℚ
  wind_speed_10m : ℚ
  weather_code : ℤ
deriving DecidableEq, Repr

/-- The weather snapshot built on a successful provider call
(src/server.ts lines 534-540): temperatures and humidity rounded, wind
converted from km/h to m/s with one decimal, trailing precipitation
summed and rounded. -/
def weatherSuccess (current : CurrentWeather) (daily : List (Option ℚ)) : Weather where
  temp := (jsRound current.temperature_2m : ℚ)
  condition := wmoToCondition current.weather_code
  humidity := (jsRound current.relative_humidity_2m : ℚ)
  wind := toFixed1 (current.wind_speed_10m / 3.6)
  rain_14d := (jsRound (rainSum daily) : ℚ)

/-- The synthetic month-keyed snapshot substituted on any weather-call
failure (src/server.ts lines 541-552). -/
def weatherFallback (month : ℕ) : Weather :=
  let isWinter := 10 ≤ month ∨ month ≤ 2
  let isSummer := 5 ≤ month ∧ month ≤ 7
  { temp := if isWinter then -5 else if isSummer then 25 else 10
    condition := if isWinter then .Snow else if isSummer then .Clear else .Clouds
    humidity := 60
    wind := 5
    rain_14d := 0 }

/-- Outcome of the forecast-provider call: either the parsed reply or
any transport/parse failure. -/
inductive WeatherOutcome where
  | failure
  | success (current : CurrentWeather) (daily : List (Option ℚ))
deriving Repr

/-- The whole weather lookup (src/server.ts lines 504-552). It is a
total function — the `try/catch` means no error ever reaches the
orchestrator. -/
def weatherLookup : WeatherOutcome → ℕ → Weather
  | .failure, month => weatherFallback month
  | .success c d, _ => weatherSuccess c d

lemma jsOrZero_eq (a : ℚ) : jsOrZero a = a := by
  by_cases h : a = 0 <;> simp [jsOrZero, h]

lemma jsOrZeroOpt_eq (b : Option ℚ) : jsOrZeroOpt b = b.getD 0 := by
  cases b <;> simp [jsOrZeroOpt, jsOrZero_eq]

lemma rainSum_foldl (daily : List (Option ℚ)) (init : ℚ) :
    daily.foldl (fun a b => jsOrZero a + jsOrZeroOpt b) init =
      init + (daily.map fun o => o.getD 0).sum := by
  induction daily generalizing init with
  | nil => simp
  | cons b l ih =>
      simp only [List.foldl_cons, List.map_cons, List.sum_cons]
      rw [ih, jsOrZero_eq, jsOrZeroOpt_eq]
      ring

lemma rainSum_eq_sum (daily : List (Option ℚ)) :
    rainSum daily = (daily.map fun o => o.getD 0).sum := by
  unfold rainSum
  rw [rainSum_foldl]
  ring

lemma toFixed1_close (q : ℚ) : |toFixed1 q - q| ≤ 1/20 := by
  unfold toFixed1 jsRound
  have h1 : (⌊q * 10 + 1/2⌋ : ℚ) ≤ q * 10 + 1/2 := Int.floor_le _
  have h2 : q * 10 + 1/2 < (⌊q * 10 + 1/2⌋ : ℚ) + 1 := Int.lt_floor_add_one _
  rw [abs_le]
  constructor <;> [linarith; linarith]

/-- C7: the weather lookup is a total function (no error escapes).  On
success the wind is the provider speed converted to m/s (within the
one-decimal rounding, error at most 1/20), trailing precipitation is the
rounded sum of the daily values with missing values counted as zero, and
the condition comes from `wmoToCondition`.  On failure the synthetic
snapshot is keyed by month: winter months give -5/Snow, summer months
25/Clear, shoulder months 10/Clouds, always with humidity 60, wind 5,
rain 0. -/
theorem weatherLookup_spec :
    (∀ (c : CurrentWeather) (daily : List (Option ℚ)) (month : ℕ),
      (weatherLookup (.success c daily) month).rain_14d =
        (jsRound ((daily.map fun o => o.getD 0).sum) : ℚ) ∧
      |(weatherLookup (.success c daily) month).wind -
        c.wind_speed_10m / 3.6| ≤ 1/20 ∧
      (weatherLookup (.success c daily) month).condition =
        wmoToCondition c.weather_code) ∧
    (∀ month : ℕ,
      ((10 ≤ month ∨ month ≤ 2) →
        weatherLookup .failure month = Weather.mk (-5) .Snow 60 5 0) ∧
      ((5 ≤ month ∧ month ≤ 7) →
        weatherLookup .failure month = Weather.mk 25 .Clear 60 5 0) ∧
      (¬ (10 ≤ month ∨ month ≤ 2) → ¬ (5 ≤ month ∧ month ≤ 7) →
        weatherLookup .failure month = Weather.mk 10 .Clouds 60 5 0)) := by
  constructor
  · intro c daily month
    refine ⟨?_, ?_, rfl⟩
    · show (jsRound (rainSum daily) : ℚ) = _
      rw [rainSum_eq_sum]
    · exact toFixed1_close _
  · intro month
    refine ⟨?_, ?_, ?_⟩
    · intro h
      have h' : ¬ (5 ≤ month ∧ month ≤ 7) := by omega
      simp [weatherLookup, weatherFallback, h]
    · intro h
      have h' : ¬ (10 ≤ month ∨ month ≤ 2) := by omega
      simp [weatherLookup, weatherFallback, h, h']
    · intro h h'
      simp [weatherLookup, weatherFallback, h, h']

/-- C7 witness: concrete instances — a success reply with a missing
daily value (wind 10 km/h ↦ 2.8 m/s, rain `[1, null, 2]` ↦ 3), and the
failure fallbacks for months 11, 6 and 8. -/
theorem weatherLookup_spec_witness :
    (weatherLookup (.success (CurrentWeather.mk 20 50 10 0)
        [some 1, none, some 2]) 6).rain_14d = 3 ∧
    |(weatherLookup (.success (CurrentWeather.mk 20 50 10 0)
        [some 1, none, some 2]) 6).wind - 10 / 3.6| ≤ 1/20 ∧
    weatherLookup .failure 11 = Weather.mk (-5) .Snow 60 5 0 ∧
    weatherLookup .failure 6 = Weather.mk 25 .Clear 60 5 0 ∧
    weatherLookup .failure 8 = Weather.mk 10 .Clouds 60 5 0 := by
  refine ⟨?_, ?_, ?_, ?_, ?_⟩
  · rw [(weatherLookup_spec.1 (CurrentWeather.mk 20 50 10 0)
      [some 1, none, some 2] 6).1]
    norm_num [jsRound]
  · exact (weatherLookup_spec.1 (CurrentWeather.mk 20 50 10 0)
      [some 1, none, some 2] 6).2.1
  · exact (weatherLookup_spec.2 11).1 (Or.inl (by omega))
  · exact (weatherLookup_spec.2 6).2.1 ⟨by omega, by omega⟩
  · exact (weatherLookup_spec.2 8).2.2 (by omega) (by omega)

/-- One entry of the recommendation list requested from the language
model (src/server.ts lines 591-593). -/
structure Recommendation where
  title : String
  desc : String
  rtype : String
  priority : String
deriving DecidableEq, Repr

/-- The AI-insight payload (src/server.ts lines 563-568). -/
structure Insight where
  status_title : String
  summary : String
  weather_impact : String
  recommendations : List Recommendation
deriving DecidableEq, Repr

/-- The fixed placeholder insight installed before the language-model
call (src/server.ts lines 563-568) and kept on any failure. -/
def placeholderInsight : Insight where
  status_title := "Анализ завершен"
  summary := "Данные обработаны."
  weather_impact := "Нет данных."
  recommendations := []

def fenceJsonChars : List Char := "```json".toList

def fenceChars : List Char := "```".toList

/-- One pass of the regex `/```json|```/g` over the character list:
at each position the alternation prefers the longer alternative, exactly
as the JS regex engine does. The fuel argument is the remaining length
bound; every step consumes at least one character. -/
def stripFencesAux : ℕ → List Char → List Char
  | 0, _ => []
  | _ + 1, [] => []
  | fuel + 1, c :: rest =>
    if fenceJsonChars.isPrefixOf (c :: rest) then stripFencesAux fuel (rest.drop 6)
    else if fenceChars.isPrefixOf (c :: rest) then stripFencesAux fuel (rest.drop 2)
    else c :: stripFencesAux fuel rest

/-- `text.replace(/```json|```/g, '')` (src/server.ts line 612). -/
def stripFences (s : String) : String :=
  (stripFencesAux s.length s.toList).asString

/-- JS `String.prototype.trim`: drop whitespace from both ends. -/
def jsTrim (s : String) : String :=
  (((s.toList.dropWhile Char.isWhitespace).reverse.dropWhile
    Char.isWhitespace).reverse).asString

/-- Outcome of the language-model round trip: a thrown error, or the
text extracted from the provider reply. -/
inductive LLMOutcome where
  | failure
  | reply (text : String)

/-- The raw string handed to `JSON.parse` (src/server.ts lines 597-614):
the Groq branch passes the model text as-is, the Gemini branch strips
code fences and trims, and with neither key configured the string stays
empty. -/
def llmRawText (groqKey geminiKey : Bool) (text : String) : String :=
  if groqKey then text
  else if geminiKey then jsTrim (stripFences text)
  else ""

/-- The insight attached to the analysis (src/server.ts lines 563-617):
`JSON.parse` is modelled by the `parse` argument (`none` = throws), and
the surrounding `try/catch` keeps the placeholder on any failure. -/
def aiInsightResult (groqKey geminiKey : Bool) (outcome : LLMOutcome)
    (parse : String → Option Insight) : Insight :=
  match outcome with
  | .failure => placeholderInsight
  | .reply text => (parse (llmRawText groqKey geminiKey text)).getD placeholderInsight

def fencedSample : String := "```json 1```"

/-- C6: the claim asserts the raw model text is stripped of code-fence
markers before parsing, but the stripping (line 612) sits only on the
Gemini branch: with the Groq key configured the text reaches
`JSON.parse` untouched, fences and all. -/
theorem groq_text_not_stripped :
    llmRawText true false fencedSample = fencedSample ∧
      stripFences fencedSample ≠ fencedSample := by
  constructor
  · rfl
  · decide

/-- C6 (amended): whenever the language-model call fails, is
unconfigured, or returns text that does not parse, the analysis still
carries the well-formed fixed placeholder insight (status title
"Анализ завершен", summary "Данные обработаны.", weather impact
"Нет данных.", empty recommendations) — the insight is never missing and
no error propagates; code-fence stripping (plus trim) is applied on the
Gemini branch only, while the Groq branch parses the text as-is. -/
theorem aiInsightResult_spec :
    (∀ (g m : Bool) (parse : String → Option Insight),
      aiInsightResult g m .failure parse = placeholderInsight) ∧
    (∀ (g m : Bool) (parse : String → Option Insight) (t : String),
      parse (llmRawText g m t) = none →
        aiInsightResult g m (.reply t) parse = placeholderInsight) ∧
    (∀ (parse : String → Option Insight) (t : String),
      parse "" = none →
        aiInsightResult false false (.reply t) parse = placeholderInsight) ∧
    (∀ t : String, llmRawText false true t = jsTrim (stripFences t)) ∧
    (∀ t : String, llmRawText true false t = t) ∧
    (placeholderInsight.status_title = "Анализ завершен" ∧
      placeholderInsight.summary = "Данные обработаны." ∧
      placeholderInsight.weather_impact = "Нет данных." ∧
      placeholderInsight.recommendations = []) := by
  refine ⟨fun g m parse => rfl, ?_, ?_, fun t => rfl, fun t => rfl,
    rfl, rfl, rfl, rfl⟩
  · intro g m parse t h
    simp [aiInsightResult, h]
  · intro parse t h
    simp [aiInsightResult, llmRawText, h]

/-- C6 witness: with Groq configured and a parser that rejects the
fenced sample text, the placeholder is returned. -/
theorem aiInsightResult_spec_witness :
    aiInsightResult true false (.reply fencedSample) (fun _ => none) =
      placeholderInsight :=
  aiInsightResult_spec.2.1 true false (fun _ => none) fencedSample rfl

/-- A JSON value as it arrives in `req.body` (no NaN/Infinity can come
out of JSON). -/
inductive JSVal where
  | str (s : String)
  | num (q : ℚ)
  | boolean (b : Bool)
  | null
  | undefined
deriving DecidableEq, Repr

/-- JS falsiness, as tested by `!lat || !lon`
(src/server.ts line 406). -/
def jsFalsy : JSVal → Bool
  | .str s => decide (s = "")
  | .num q => decide (q = 0)
  | .boolean b => !b
  | .null => true
  | .undefined => true

/-- Outcome of the Copernicus imagery lookup (src/server.ts lines
418-465): either unavailable (unconfigured, any API error, or no
product found) or the most recent product. -/
inductive ImageryOutcome where
  | unavailable
  | product (quicklookUrl productId acquisitionDate : String)

/-- The analysis base built when a Copernicus product is found
(src/server.ts lines 448-457). -/
def copernicusBase (url pid date : String) : AnalysisBase where
  ndvi_average := 0.62
  healthy_percent := 75
  moderate_percent := 15
  stressed_percent := 10
  alert := false
  map_url := some url
  product_id := some pid
  acquisition_date := some date

def imageryBase : ImageryOutcome → Option AnalysisBase
  | .unavailable => none
  | .product u p d => some (copernicusBase u p d)

/-- Everything the handler consumes besides the request coordinates:
the imagery outcome, the five random draws, the current month, the crop
type read from the database (none when the field row is missing), the
weather outcome, the provider configuration and the language-model
round trip. -/
structure AnalyzeEnv where
  imagery : ImageryOutcome
  r1 : ℚ
  r2 : ℚ
  r3 : ℚ
  r4 : ℚ
  r5 : ℚ
  month : ℕ
  cropFromDb : Option String
  weatherOutcome : WeatherOutcome
  groqKey : Bool
  geminiKey : Bool
  llm : LLMOutcome
  parse : String → Option Insight

/-- The success body of `/api/analyze`
(src/server.ts lines 619-623, 653). -/
structure AnalyzeResponse where
  ndvi_average : ℚ
  healthy_percent : ℚ
  moderate_percent : ℚ
  stressed_percent : ℚ
  alert : Bool
  map_url : Option String
  product_id : Option String
  acquisition_date : Option String
  weather : Weather
  stress_cause : String
  ndvi_deviation : ℚ
  seasonal_norm : ℚ
  ai_insight : Insight
  success : Bool

/-- The failure body of `/api/analyze` (src/server.ts line 656). -/
structure ErrorResponse where
  message : String
  success : Bool
deriving DecidableEq, Repr

def coordsRequiredMsg : String :=
  "Latitude and Longitude are required for analysis."

/-- The `/api/analyze` handler (src/server.ts lines 402-658): validation
by JS truthiness, imagery base or synthetic fallback, seasonal norm and
deviation, weather lookup, stress cause, AI insight, then the success
body. -/
def analyzeHandler (env : AnalyzeEnv) (lat lon : JSVal) :
    Except ErrorResponse AnalyzeResponse :=
  if jsFalsy lat || jsFalsy lon then
    .error (ErrorResponse.mk coordsRequiredMsg false)
  else
    let base := (imageryBase env.imagery).getD
      (fallbackBase env.r1 env.r2 env.r3 env.r4 env.r5)
    let cropType := env.cropFromDb.getD cropUnknown
    let seasonalNorm := getSeasonalNorm cropType env.month
    let dev := base.ndvi_average - seasonalNorm
    let w := weatherLookup env.weatherOutcome env.month
    .ok
      { ndvi_average := base.ndvi_average
        healthy_percent := base.healthy_percent
        moderate_percent := base.moderate_percent
        stressed_percent := base.stressed_percent
        alert := base.alert
        map_url := base.map_url
        product_id := base.product_id
        acquisition_date := base.acquisition_date
        weather := w
        stress_cause := stressCause dev w base.ndvi_average
        ndvi_deviation := dev
        seasonal_norm := seasonalNorm
        ai_insight := aiInsightResult env.groqKey env.geminiKey env.llm env.parse
        success := true }

/-- The success body the handler produces once validation passes
(the `.ok` branch of `analyzeHandler`, named for the proofs). -/
def analyzeOkResponse (env : AnalyzeEnv) : AnalyzeResponse :=
  let base := (imageryBase env.imagery).getD
    (fallbackBase env.r1 env.r2 env.r3 env.r4 env.r5)
  let cropType := env.cropFromDb.getD cropUnknown
  let seasonalNorm := getSeasonalNorm cropType env.month
  let dev := base.ndvi_average - seasonalNorm
  let w := weatherLookup env.weatherOutcome env.month
  { ndvi_average := base.ndvi_average
    healthy_percent := base.healthy_percent
    moderate_percent := base.moderate_percent
    stressed_percent := base.stressed_percent
    alert := base.alert
    map_url := base.map_url
    product_id := base.product_id
    acquisition_date := base.acquisition_date
    weather := w
    stress_cause := stressCause dev w base.ndvi_average
    ndvi_deviation := dev
    seasonal_norm := seasonalNorm
    ai_insight := aiInsightResult env.groqKey env.geminiKey env.llm env.parse
    success := true }

lemma analyzeHandler_ok (env : AnalyzeEnv) (lat lon : JSVal)
    (hlat : jsFalsy lat = false) (hlon : jsFalsy lon = false) :
    analyzeHandler env lat lon = .ok (analyzeOkResponse env) := by
  unfold analyzeHandler analyzeOkResponse
  rw [hlat, hlon]
  rfl

lemma fallbackBase_bounds (r1 r2 r3 r4 r5 : ℚ)
    (h1 : 0 ≤ r1 ∧ r1 < 1) (h2 : 0 ≤ r2 ∧ r2 < 1) (h3 : 0 ≤ r3 ∧ r3 < 1)
    (h4 : 0 ≤ r4 ∧ r4 < 1) :
    (65 ≤ (fallbackBase r1 r2 r3 r4 r5).healthy_percent ∧
      (fallbackBase r1 r2 r3 r4 r5).healthy_percent ≤ 85) ∧
    (20 ≤ (fallbackBase r1 r2 r3 r4 r5).moderate_percent ∧
      (fallbackBase r1 r2 r3 r4 r5).moderate_percent ≤ 30) ∧
    (5 ≤ (fallbackBase r1 r2 r3 r4 r5).stressed_percent ∧
      (fallbackBase r1 r2 r3 r4 r5).stressed_percent ≤ 10) ∧
    (0.58 ≤ (fallbackBase r1 r2 r3 r4 r5).ndvi_average ∧
      (fallbackBase r1 r2 r3 r4 r5).ndvi_average ≤ 0.78) := by
  obtain ⟨h1a, h1b⟩ := h1
  obtain ⟨h2a, h2b⟩ := h2
  obtain ⟨h3a, h3b⟩ := h3
  obtain ⟨h4a, h4b⟩ := h4
  unfold fallbackBase
  refine ⟨⟨by nlinarith, by nlinarith⟩, ⟨by nlinarith, by nlinarith⟩,
    ⟨by nlinarith, by nlinarith⟩, by nlinarith, by nlinarith⟩

lemma getSeasonalNorm_mem (crop : String) (month : ℕ) :
    getSeasonalNorm crop month = 0.2 ∨ getSeasonalNorm crop month = 0.45 ∨
      getSeasonalNorm crop month = 0.8 ∨ getSeasonalNorm crop month = 0.5 := by
  unfold getSeasonalNorm
  split_ifs
  exacts [Or.inl rfl, Or.inr (Or.inl rfl), Or.inr (Or.inr (Or.inl rfl)),
    Or.inr (Or.inr (Or.inr rfl))]

lemma getSeasonalNorm_bounds (crop : String) (month : ℕ) :
    0.2 ≤ getSeasonalNorm crop month ∧ getSeasonalNorm crop month ≤ 0.8 := by
  rcases getSeasonalNorm_mem crop month with h | h | h | h <;> rw [h] <;>
    exact ⟨by norm_num, by norm_num⟩

/-- C1: for every request whose latitude and longitude pass validation,
the handler answers with the success body: success flag true, NDVI
average in [0.58, 0.78], healthy percent in [65, 85], moderate percent
in [15, 30], stressed percent in [5, 10], the seasonal norm in
[0.2, 0.8], and the deviation equal to average minus norm, hence in
[-0.22, 0.58] — all finite numbers (the model works in ℚ, the explicit
bounds witnessing finiteness). -/
theorem analyzeHandler_valid_success (env : AnalyzeEnv) (lat lon : JSVal)
    (hlat : jsFalsy lat = false) (hlon : jsFalsy lon = false)
    (h1 : 0 ≤ env.r1 ∧ env.r1 < 1) (h2 : 0 ≤ env.r2 ∧ env.r2 < 1)
    (h3 : 0 ≤ env.r3 ∧ env.r3 < 1) (h4 : 0 ≤ env.r4 ∧ env.r4 < 1) :
    ∃ resp : AnalyzeResponse, analyzeHandler env lat lon = .ok resp ∧
      resp.success = true ∧
      (0.58 ≤ resp.ndvi_average ∧ resp.ndvi_average ≤ 0.78) ∧
      (65 ≤ resp.healthy_percent ∧ resp.healthy_percent ≤ 85) ∧
      (15 ≤ resp.moderate_percent ∧ resp.moderate_percent ≤ 30) ∧
      (5 ≤ resp.stressed_percent ∧ resp.stressed_percent ≤ 10) ∧
      (0.2 ≤ resp.seasonal_norm ∧ resp.seasonal_norm ≤ 0.8) ∧
      resp.ndvi_deviation = resp.ndvi_average - resp.seasonal_norm ∧
      (-0.22 ≤ resp.ndvi_deviation ∧ resp.ndvi_deviation ≤ 0.58) := by
  have hcond : (jsFalsy lat || jsFalsy lon) = false := by
    rw [hlat, hlon]; rfl
  have hnorm := getSeasonalNorm_bounds (env.cropFromDb.getD cropUnknown) env.month
  have hbase : 0.58 ≤ ((imageryBase env.imagery).getD
        (fallbackBase env.r1 env.r2 env.r3 env.r4 env.r5)).ndvi_average ∧
      ((imageryBase env.imagery).getD
        (fallbackBase env.r1 env.r2 env.r3 env.r4 env.r5)).ndvi_average ≤ 0.78 ∧
      65 ≤ ((imageryBase env.imagery).getD
        (fallbackBase env.r1 env.r2 env.r3 env.r4 env.r5)).healthy_percent ∧
      ((imageryBase env.imagery).getD
        (fallbackBase env.r1 env.r2 env.r3 env.r4 env.r5)).healthy_percent ≤ 85 ∧
      15 ≤ ((imageryBase env.imagery).getD
        (fallbackBase env.r1 env.r2 env.r3 env.r4 env.r5)).moderate_percent ∧
      ((imageryBase env.imagery).getD
        (fallbackBase env.r1 env.r2 env.r3 env.r4 env.r5)).moderate_percent ≤ 30 ∧
      5 ≤ ((imageryBase env.imagery).getD
        (fallbackBase env.r1 env.r2 env.r3 env.r4 env.r5)).stressed_percent ∧
      ((imageryBase env.imagery).getD
        (fallbackBase env.r1 env.r2 env.r3 env.r4 env.r5)).stressed_percent ≤ 10 := by
    cases him : env.imagery with
    | unavailable =>
        have hb := fallbackBase_bounds env.r1 env.r2 env.r3 env.r4 env.r5 h1 h2 h3 h4
        simp only [imageryBase, Option.getD_none]
        exact ⟨hb.2.2.2.1, hb.2.2.2.2, hb.1.1, hb.1.2,
          by linarith [hb.2.1.1], hb.2.1.2, hb.2.2.1.1, hb.2.2.1.2⟩
    | product u p d =>
        simp only [imageryBase, Option.getD_some]
        unfold copernicusBase
        refine ⟨by norm_num, by norm_num, by norm_num, by norm_num,
          by norm_num, by norm_num, by norm_num, by norm_num⟩
  refine ⟨analyzeOkResponse env, analyzeHandler_ok env lat lon hlat hlon,
    rfl, ?_, ?_, ?_, ?_, ?_, rfl, ?_⟩
  · exact ⟨hbase.1, hbase.2.1⟩
  · exact ⟨hbase.2.2.1, hbase.2.2.2.1⟩
  · exact ⟨hbase.2.2.2.2.1, hbase.2.2.2.2.2.1⟩
  · exact ⟨hbase.2.2.2.2.2.2.1, hbase.2.2.2.2.2.2.2⟩
  · exact hnorm
  · have hdev : (analyzeOkResponse env).ndvi_deviation =
        ((imageryBase env.imagery).getD
          (fallbackBase env.r1 env.r2 env.r3 env.r4 env.r5)).ndvi_average -
          getSeasonalNorm (env.cropFromDb.getD cropUnknown) env.month := rfl
    rw [hdev]
    constructor <;> [linarith [hbase.1, hnorm.2]; linarith [hbase.2.1, hnorm.1]]

def sampleParse : String → Option Insight := fun _ => none

/-- A concrete environment: no imagery, all draws 1/2, July, no field
row, weather failure, no provider keys. -/
def sampleEnv : AnalyzeEnv where
  imagery := .unavailable
  r1 := 1/2
  r2 := 1/2
  r3 := 1/2
  r4 := 1/2
  r5 := 1/2
  month := 6
  cropFromDb := none
  weatherOutcome := .failure
  groqKey := false
  geminiKey := false
  llm := .failure
  parse := sampleParse

/-- C1 witness: the concrete environment with coordinates 55 and 37. -/
theorem analyzeHandler_valid_success_witness :
    ∃ resp : AnalyzeResponse,
      analyzeHandler sampleEnv (JSVal.num 55) (JSVal.num 37) = .ok resp ∧
      resp.success = true ∧
      (0.58 ≤ resp.ndvi_average ∧ resp.ndvi_average ≤ 0.78) ∧
      (65 ≤ resp.healthy_percent ∧ resp.healthy_percent ≤ 85) ∧
      (15 ≤ resp.moderate_percent ∧ resp.moderate_percent ≤ 30) ∧
      (5 ≤ resp.stressed_percent ∧ resp.stressed_percent ≤ 10) ∧
      (0.2 ≤ resp.seasonal_norm ∧ resp.seasonal_norm ≤ 0.8) ∧
      resp.ndvi_deviation = resp.ndvi_average - resp.seasonal_norm ∧
      (-0.22 ≤ resp.ndvi_deviation ∧ resp.ndvi_deviation ≤ 0.58) :=
  analyzeHandler_valid_success sampleEnv (JSVal.num 55) (JSVal.num 37)
    (by norm_num [jsFalsy]) (by norm_num [jsFalsy])
    ⟨by norm_num [sampleEnv], by norm_num [sampleEnv]⟩
    ⟨by norm_num [sampleEnv], by norm_num [sampleEnv]⟩
    ⟨by norm_num [sampleEnv], by norm_num [sampleEnv]⟩
    ⟨by norm_num [sampleEnv], by norm_num [sampleEnv]⟩

/-- C10: `/api/analyze` rejects a request exactly when `lat` or `lon`
is JS-falsy — so latitude 0 or longitude 0 (valid equator /
prime-meridian coordinates) is rejected with the error body and success
flag false, while any nonempty string (numeric or not) passes
validation. -/
theorem analyzeHandler_validation_spec :
    (∀ (env : AnalyzeEnv) (lat lon : JSVal),
      analyzeHandler env lat lon =
          .error (ErrorResponse.mk coordsRequiredMsg false) ↔
        (jsFalsy lat = true ∨ jsFalsy lon = true)) ∧
    (∀ (env : AnalyzeEnv) (lon : JSVal),
      analyzeHandler env (JSVal.num 0) lon =
        .error (ErrorResponse.mk coordsRequiredMsg false)) ∧
    (∀ (env : AnalyzeEnv) (s t : String), s ≠ "" → t ≠ "" →
      analyzeHandler env (JSVal.str s) (JSVal.str t) =
        .ok (analyzeOkResponse env)) := by
  have hiff : ∀ (env : AnalyzeEnv) (lat lon : JSVal),
      analyzeHandler env lat lon =
          .error (ErrorResponse.mk coordsRequiredMsg false) ↔
        (jsFalsy lat = true ∨ jsFalsy lon = true) := by
    intro env lat lon
    constructor
    · intro h
      by_contra hc
      push_neg at hc
      obtain ⟨hl, hr⟩ := hc
      rw [analyzeHandler_ok env lat lon
        (Bool.not_eq_true _ ▸ hl) (Bool.not_eq_true _ ▸ hr)] at h
      exact Except.noConfusion h
    · intro h
      have hcond : (jsFalsy lat || jsFalsy lon) = true := by
        rcases h with h | h <;> simp [h]
      unfold analyzeHandler
      rw [hcond]
      rfl
  refine ⟨hiff, ?_, ?_⟩
  · intro env lon
    refine (hiff env (JSVal.num 0) lon).mpr (Or.inl ?_)
    simp [jsFalsy]
  · intro env s t hs ht
    exact analyzeHandler_ok env (JSVal.str s) (JSVal.str t)
      (by simp [jsFalsy, hs]) (by simp [jsFalsy, ht])

def sampleStr : String := "abc"

def sampleStr2 : String := "55.7"

/-- C10 witness: latitude 0 is rejected; the non-numeric string "abc"
(and the numeric string "55.7") pass validation. -/
theorem analyzeHandler_validation_spec_witness :
    analyzeHandler sampleEnv (JSVal.num 0) (JSVal.num 50) =
      .error (ErrorResponse.mk coordsRequiredMsg false) ∧
    analyzeHandler sampleEnv (JSVal.str sampleStr) (JSVal.str sampleStr2) =
      .ok (analyzeOkResponse sampleEnv) :=
  ⟨analyzeHandler_validation_spec.2.1 sampleEnv (JSVal.num 50),
   analyzeHandler_validation_spec.2.2 sampleEnv sampleStr sampleStr2
     (by decide) (by decide)⟩

/-- The lat/lon ↦ lon/lat swap `p => [p[1], p[0]]` used by the polygon
converters (src/server.ts lines 41, 60). -/
def swapPair (p : ℚ × ℚ) : ℚ × ℚ := (p.2, p.1)

/-- `toGeoJSONPolygon` (src/server.ts lines 37-54): swap each vertex to
lon/lat and append the first coordinate when the ring is not closed;
null for fewer than three vertices.  The source indexes `coordinates[0]`
and `coordinates[length-1]`, always present since the length is at least
3; the `getD` defaults here are unreachable. -/
def toGeoJSONPolygon (points : List (ℚ × ℚ)) : Option (List (ℚ × ℚ)) :=
  if points.length < 3 then none
  else
    let coordinates := points.map swapPair
    let h := coordinates.head?.getD (0, 0)
    let l := coordinates.getLast?.getD (0, 0)
    if h.1 ≠ l.1 ∨ h.2 ≠ l.2 then some (coordinates ++ [h])
    else some coordinates

/-- `fromGeoJSONPolygon` (src/server.ts lines 57-61): `[]` on a missing
polygon, else swap every stored coordinate back to lat/lon. -/
def fromGeoJSONPolygon : Option (List (ℚ × ℚ)) → List (ℚ × ℚ)
  | none => []
  | some coords => coords.map swapPair

/-- `toGeoJSONPoint` (src/server.ts lines 64-69): GeoJSON stores
(lon, lat). -/
def toGeoJSONPoint (lat lon : ℚ) : ℚ × ℚ := (lon, lat)

/-- The frontend coordinate object. -/
structure LatLon where
  lat : ℚ
  lon : ℚ
deriving DecidableEq, Repr

/-- `fromGeoJSONPoint` (src/server.ts lines 72-78). -/
def fromGeoJSONPoint : Option (ℚ × ℚ) → LatLon
  | none => LatLon.mk 0 0
  | some p => LatLon.mk p.2 p.1

def triSample : List (ℚ × ℚ) := [(0, 0), (0, 1), (1, 0)]

/-- C9: the claim that the polygon round trip returns the original list
for every vertex list fails — an unclosed triangle comes back with the
first vertex appended as a closing point. -/
theorem polygon_roundtrip_counterexample :
    fromGeoJSONPolygon (toGeoJSONPolygon triSample) ≠ triSample := by
  decide

/-- C9 (amended): the point conversions are mutually inverse; the
polygon round trip yields the original list exactly for already-closed
rings of at least three vertices — an unclosed ring comes back with the
first vertex appended, and a list of fewer than three vertices comes
back empty. -/
theorem geoAdapter_spec :
    (∀ lat lon : ℚ,
      fromGeoJSONPoint (some (toGeoJSONPoint lat lon)) = LatLon.mk lat lon) ∧
    (∀ points : List (ℚ × ℚ), points.length < 3 →
      fromGeoJSONPolygon (toGeoJSONPolygon points) = []) ∧
    (∀ points : List (ℚ × ℚ), 3 ≤ points.length →
      (points.head? = points.getLast? →
        fromGeoJSONPolygon (toGeoJSONPolygon points) = points) ∧
      (points.head? ≠ points.getLast? →
        fromGeoJSONPolygon (toGeoJSONPolygon points) =
          points ++ points.take 1)) := by
  have hswap : ∀ l : List (ℚ × ℚ), (l.map swapPair).map swapPair = l := by
    intro l
    rw [List.map_map]
    have : swapPair ∘ swapPair = id := by
      funext p
      rfl
    rw [this, List.map_id]
  refine ⟨fun lat lon => rfl, ?_, ?_⟩
  · intro points hlen
    unfold toGeoJSONPolygon
    rw [if_pos hlen]
    rfl
  · intro points hlen
    obtain ⟨a, l, rfl⟩ : ∃ a t, points = a :: t := by
      cases points with
      | nil => simp at hlen
      | cons a t => exact ⟨a, t, rfl⟩
    obtain ⟨x, hx⟩ : ∃ x, (a :: l).getLast? = some x :=
      Option.isSome_iff_exists.mp (List.getLast?_isSome.mpr (by simp))
    have hhead : ((a :: l).map swapPair).head? = some (swapPair a) := by
      simp
    have hlast : ((a :: l).map swapPair).getLast? = some (swapPair x) := by
      rw [List.getLast?_map, hx]
      rfl
    have hcond : ((swapPair a).1 ≠ (swapPair x).1 ∨
        (swapPair a).2 ≠ (swapPair x).2) ↔ ¬ a = x := by
      unfold swapPair
      rw [Prod.ext_iff]
      tauto
    constructor
    · intro hclosed
      have hax : a = x := by
        rw [List.head?_cons, hx] at hclosed
        exact Option.some.inj hclosed
      unfold toGeoJSONPolygon
      rw [if_neg (by omega)]
      simp only [hhead, hlast, Option.getD_some]
      rw [if_neg (by rw [hcond]; exact fun hne => hne hax)]
      exact hswap _
    · intro hopen
      have hax : ¬ a = x := by
        intro he
        apply hopen
        rw [List.head?_cons, hx, he]
      unfold toGeoJSONPolygon
      rw [if_neg (by omega)]
      simp only [hhead, hlast, Option.getD_some]
      rw [if_pos (hcond.mpr hax)]
      show ((a :: l).map swapPair ++ [swapPair a]).map swapPair = _
      rw [List.map_append, hswap]
      rfl

/-- C9 witness: a closed square ring round-trips to itself; the open
triangle comes back closed; a two-vertex list comes back empty. -/
theorem geoAdapter_spec_witness :
    fromGeoJSONPolygon (toGeoJSONPolygon [(0, 0), (0, 1), (1, 1), (0, 0)]) =
      [(0, 0), (0, 1), (1, 1), (0, 0)] ∧
    fromGeoJSONPolygon (toGeoJSONPolygon triSample) =
      triSample ++ triSample.take 1 ∧
    fromGeoJSONPolygon (toGeoJSONPolygon [(0, 0), (0, 1)]) = [] :=
  ⟨(geoAdapter_spec.2.2 [(0, 0), (0, 1), (1, 1), (0, 0)] (by decide)).1
      (by decide),
   (geoAdapter_spec.2.2 triSample (by decide)).2 (by decide),
   geoAdapter_spec.2.1 [(0, 0), (0, 1)] (by decide)⟩

/-- The last-analysis snapshot stored on a field row: the zero
placeholder at field creation (src/server.ts lines 330-337), later
overwritten with the analysis result (lines 639-644). -/
structure Snapshot where
  ndvi_average : ℚ
  healthy_percent : ℚ
  moderate_percent : ℚ
  stressed_percent : ℚ
  alert : Bool
deriving DecidableEq, Repr

/-- The placeholder written when a field is created
(src/server.ts lines 330-337). -/
def zeroSnapshot : Snapshot := Snapshot.mk 0 0 0 0 false

/-- A row of the `fields` table (the parts the claim is about: id,
owning user, last-analysis snapshot). -/
structure FieldRow where
  fid : ℕ
  user_id : ℕ
  last_analysis : Snapshot
deriving DecidableEq, Repr

/-- A row of the `analyses` table: its single owning field reference
and the recorded metrics. -/
structure AnalysisRow where
  field_id : ℕ
  snap : Snapshot
deriving DecidableEq, Repr

/-- The persistent store touched by the handler. -/
structure Store where
  fields : List FieldRow
  analyses : List AnalysisRow
deriving DecidableEq, Repr

def emptyStore : Store := Store.mk [] []

/-- The store operations issued by the server: field creation
(src/server.ts lines 323-344) and the two analysis writes of
`/api/analyze` (lines 628-644).  The supabase client reports write
errors in its return value without throwing, and the handler ignores
them, so each write independently either lands or is lost — the two
Booleans record which. -/
inductive Op where
  | createField (fid uid : ℕ)
  | analyze (fid : ℕ) (result : Snapshot) (insertOk updateOk : Bool)
deriving DecidableEq, Repr

/-- The field update performed by the `.update(...).eq('id', field_id)`
call (src/server.ts lines 639-644): it always writes the complete
analysis result. -/
def updField (fid : ℕ) (result : Snapshot) (f : FieldRow) : FieldRow :=
  if f.fid = fid then FieldRow.mk f.fid f.user_id result else f

def applyOp (s : Store) : Op → Store
  | .createField fid uid =>
      Store.mk (s.fields ++ [FieldRow.mk fid uid zeroSnapshot]) s.analyses
  | .analyze fid result insertOk updateOk =>
      Store.mk
        (if updateOk then s.fields.map (updField fid result) else s.fields)
        (if insertOk then s.analyses ++ [AnalysisRow.mk fid result]
         else s.analyses)

def runOps (ops : List Op) : Store := ops.foldl applyOp emptyStore

/-- The most recently completed analysis recorded for a field. -/
def latestFor (s : Store) (fid : ℕ) : Option Snapshot :=
  ((s.analyses.filter fun a => a.field_id == fid).getLast?).map AnalysisRow.snap

def uniqueFieldIds (s : Store) : Prop :=
  s.fields.Pairwise fun f g => f.fid ≠ g.fid

/-- Each field's snapshot is the most recently completed analysis for
it, or the creation placeholder when it has none. -/
def snapshotConsistent (s : Store) : Prop :=
  ∀ f ∈ s.fields, f.last_analysis = (latestFor s f.fid).getD zeroSnapshot

/-- Every analysis row references an existing field. -/
def analysesOwned (s : Store) : Prop :=
  ∀ a ∈ s.analyses, ∃ f ∈ s.fields, f.fid = a.field_id

def StoreInv (s : Store) : Prop :=
  uniqueFieldIds s ∧ snapshotConsistent s ∧ analysesOwned s

/-- Well-formedness of an operation against a state: creation uses a
fresh id, analysis targets an existing field. -/
def OpWF (s : Store) : Op → Prop
  | .createField fid _ =>
      (∀ f ∈ s.fields, f.fid ≠ fid) ∧ (∀ a ∈ s.analyses, a.field_id ≠ fid)
  | .analyze fid _ _ _ => ∃ f ∈ s.fields, f.fid = fid

/-- Both persistence writes of the orchestration landed. -/
def fullSuccess : Op → Prop
  | .createField _ _ => True
  | .analyze _ _ insertOk updateOk => insertOk = true ∧ updateOk = true

lemma updField_fid (fid : ℕ) (result : Snapshot) (f : FieldRow) :
    (updField fid result f).fid = f.fid := by
  unfold updField
  split <;> rfl

lemma latestFor_eq_none (s : Store) (fid : ℕ)
    (h : ∀ a ∈ s.analyses, a.field_id ≠ fid) : latestFor s fid = none := by
  unfold latestFor
  have hf : s.analyses.filter (fun a => a.field_id == fid) = [] := by
    rw [List.filter_eq_nil_iff]
    intro a ha
    simp [h a ha]
  rw [hf]
  rfl

lemma latestFor_concat_self (F : List FieldRow) (A : List AnalysisRow)
    (fid : ℕ) (r : Snapshot) :
    latestFor (Store.mk F (A ++ [AnalysisRow.mk fid r])) fid = some r := by
  unfold latestFor
  rw [List.filter_append]
  have h1 : [AnalysisRow.mk fid r].filter (fun a => a.field_id == fid) =
      [AnalysisRow.mk fid r] := by
    simp
  rw [h1, List.getLast?_concat]
  rfl

lemma latestFor_concat_other (F : List FieldRow) (A : List AnalysisRow)
    (fid x : ℕ) (r : Snapshot) (h : ¬ x = fid) :
    latestFor (Store.mk F (A ++ [AnalysisRow.mk fid r])) x =
      latestFor (Store.mk F A) x := by
  unfold latestFor
  rw [List.filter_append]
  have h1 : [AnalysisRow.mk fid r].filter (fun a => a.field_id == x) = [] := by
    simp
    omega
  rw [h1, List.append_nil]

def sampleSnap : Snapshot := Snapshot.mk 1 80 15 5 false

def partialTrace : List Op :=
  [Op.createField 1 10, Op.analyze 1 sampleSnap true false]

/-- C8: the claim fails — the two persistence writes are independent
and unchecked, so in the reachable state where the analysis insert
lands but the field update is lost, the field still carries the zero
placeholder while the analyses table holds a newer completed analysis:
the snapshot is not the most recently completed analysis. -/
theorem snapshot_claim_counterexample :
    (runOps partialTrace).fields = [FieldRow.mk 1 10 zeroSnapshot] ∧
    latestFor (runOps partialTrace) 1 = some sampleSnap ∧
    ¬ snapshotConsistent (runOps partialTrace) := by
  refine ⟨rfl, rfl, ?_⟩
  intro h
  have hm : FieldRow.mk 1 10 zeroSnapshot ∈ (runOps partialTrace).fields :=
    List.mem_singleton.mpr rfl
  have hz := h _ hm
  rw [show latestFor (runOps partialTrace) (FieldRow.mk 1 10 zeroSnapshot).fid =
    some sampleSnap from rfl] at hz
  simp only [Option.getD_some, zeroSnapshot, sampleSnap,
    Snapshot.mk.injEq] at hz
  exact absurd hz.1 (by norm_num)

/-- C8 (amended): the store invariant — unique field ids, every
analysis row owned by exactly one existing field (itself owned by one
user), and every field's snapshot equal to its most recently completed
analysis (or the creation placeholder when it has none) — holds in the
empty store and is preserved by every well-formed operation whose
writes all succeed; moreover the field update, whenever it lands, always
writes the orchestration's complete result (never partial data), and
when it is lost no field row changes at all.  A partially failed
orchestration can still leave the snapshot stale, as the counterexample
shows. -/
theorem storeInv_spec :
    StoreInv emptyStore ∧
    (∀ (s : Store) (op : Op), StoreInv s → OpWF s op → fullSuccess op →
      StoreInv (applyOp s op)) ∧
    (∀ (s : Store) (fid : ℕ) (result : Snapshot) (insertOk : Bool),
      ∀ f ∈ (applyOp s (Op.analyze fid result insertOk true)).fields,
        f.fid = fid → f.last_analysis = result) ∧
    (∀ (s : Store) (fid : ℕ) (result : Snapshot) (insertOk : Bool),
      (applyOp s (Op.analyze fid result insertOk false)).fields = s.fields) := by
  refine ⟨?_, ?_, ?_, ?_⟩
  · refine ⟨List.Pairwise.nil, ?_, ?_⟩
    · intro f hf
      simp [emptyStore] at hf
    · intro a ha
      simp [emptyStore] at ha
  · intro s op hinv hwf hfs
    obtain ⟨huniq, hsnap, howned⟩ := hinv
    cases op with
    | createField fid uid =>
        obtain ⟨hfresh, hnoa⟩ := hwf
        refine ⟨?_, ?_, ?_⟩
        · show (s.fields ++ [FieldRow.mk fid uid zeroSnapshot]).Pairwise _
          rw [List.pairwise_append]
          refine ⟨huniq, by simp, ?_⟩
          intro f hf b hb
          rw [List.mem_singleton] at hb
          subst hb
          exact hfresh f hf
        · intro f hf
          have hf2 : f ∈ s.fields ++ [FieldRow.mk fid uid zeroSnapshot] := hf
          rw [List.mem_append] at hf2
          rcases hf2 with hf2 | hf2
          · exact hsnap f hf2
          · rw [List.mem_singleton] at hf2
            subst hf2
            show zeroSnapshot = _
            rw [show latestFor (applyOp s (Op.createField fid uid)) fid = none
              from latestFor_eq_none _ _ hnoa]
            rfl
        · intro a ha
          obtain ⟨f, hf, hfid⟩ := howned a ha
          exact ⟨f, List.mem_append_left _ hf, hfid⟩
    | analyze fid result insertOk updateOk =>
        obtain ⟨hI, hU⟩ := hfs
        subst hI
        subst hU
        obtain ⟨f0, hf0, hf0id⟩ := hwf
        refine ⟨?_, ?_, ?_⟩
        · show (s.fields.map (updField fid result)).Pairwise _
          rw [List.pairwise_map]
          exact huniq.imp fun h => by
            rw [updField_fid, updField_fid]
            exact h
        · intro f' hf'
          have hf'' : f' ∈ s.fields.map (updField fid result) := hf'
          rw [List.mem_map] at hf''
          obtain ⟨f, hf, rfl⟩ := hf''
          rw [updField_fid]
          by_cases hid : f.fid = fid
          · have hlast : (updField fid result f).last_analysis = result := by
              unfold updField
              rw [if_pos hid]
            rw [hlast, hid]
            rw [show latestFor (applyOp s (Op.analyze fid result true true)) fid =
              some result from latestFor_concat_self _ _ _ _]
            rfl
          · have hsame : updField fid result f = f := by
              unfold updField
              rw [if_neg hid]
            rw [hsame]
            rw [show latestFor (applyOp s (Op.analyze fid result true true)) f.fid =
              latestFor (Store.mk s.fields s.analyses) f.fid
              from latestFor_concat_other _ _ _ _ _ hid]
            exact hsnap f hf
        · intro a ha
          have ha' : a ∈ s.analyses ++ [AnalysisRow.mk fid result] := ha
          rw [List.mem_append] at ha'
          rcases ha' with ha' | ha'
          · obtain ⟨f, hf, hfid⟩ := howned a ha'
            refine ⟨updField fid result f, List.mem_map_of_mem _ hf, ?_⟩
            rw [updField_fid]
            exact hfid
          · rw [List.mem_singleton] at ha'
            subst ha'
            refine ⟨updField fid result f0, List.mem_map_of_mem _ hf0, ?_⟩
            rw [updField_fid]
            exact hf0id
  · intro s fid result insertOk f hf hid
    have hf' : f ∈ s.fields.map (updField fid result) := hf
    rw [List.mem_map] at hf'
    obtain ⟨g, hg, rfl⟩ := hf'
    rw [updField_fid] at hid
    unfold updField
    rw [if_pos hid]
  · intro s fid result insertOk
    rfl

/-- C8 witness: the invariant holds after creating field 1 for user 10
in the empty store. -/
theorem storeInv_spec_witness :
    StoreInv (applyOp emptyStore (Op.createField 1 10)) :=
  storeInv_spec.2.1 emptyStore (Op.createField 1 10) storeInv_spec.1
    ⟨fun f hf => by simp [emptyStore] at hf,
     fun a ha => by simp [emptyStore] at ha⟩
    trivial

end AgroSat
